import Mathlib

/-!
Verification of the in-memory record data layer of a ServiceNow-style UI mock.

The development embeds, directly from the TypeScript source:
  - `src/utils/fieldValue.ts` : the field value codec (`getDisplayValue`,
    `getValue`, `isFieldValue`);
  - `src/api/mockApi.ts` : the query engine (`matchesFilters`, `getRecords`)
    and the CRUD facade (`createRecord`, `updateRecord`, `getRelatedRecords`).

Runtime JS values stored in record fields are modelled by `Value`; JS objects
are association lists with first-match lookup and replace-or-append update,
mirroring unique-key JS objects and spread merges.  Effects are made explicit:
the generated identifier and the current timestamp are parameters, the network
delay and the fire-and-forget persistence call (pure no-ops for the store
semantics) are dropped.
-/

/-- A JS runtime value that can sit in a record field: a string, a boolean,
`null`, or a `\x7bvalue, display_value\x7d` pair object (`vFV`). -/
inductive Value where
  | vStr (s : String)
  | vBool (b : Bool)
  | vNull
  | vFV (value display : String)
deriving DecidableEq, Repr

/-- First-match lookup in an association list (JS object property read /
`Map.get`; `none` is JS `undefined`). -/
def lookupAssoc {α : Type} : List (String × α) → String → Option α
  | [], _ => none
  | (k, v) :: rest, f => if k = f then some v else lookupAssoc rest f

/-- Replace the binding for a key, or append it (JS object property write /
`Map.set`). -/
def setAssoc {α : Type} : List (String × α) → String → α → List (String × α)
  | [], k, v => [(k, v)]
  | (k', v') :: rest, k, v =>
      if k' = k then (k, v) :: rest else (k', v') :: setAssoc rest k v

/-- A record: a JS object mapping field names to values (`SNRecord`). -/
abbrev SNRecord := List (String × Value)

/-- Read a record field (`record[field]`; `none` is `undefined`). -/
def getField (r : SNRecord) (f : String) : Option Value :=
  lookupAssoc r f

/-- Write a record field. -/
def setField (r : SNRecord) (f : String) (v : Value) : SNRecord :=
  setAssoc r f v

/-- JS object spread `\x7b...base, ...patch\x7d`: entries of `patch` override
entries of `base`, key by key, in order. -/
def mergeRecords (base patch : SNRecord) : SNRecord :=
  patch.foldl (fun acc kv => setField acc kv.1 kv.2) base

/-- JS `String(v)` coercion: a plain object (the `vFV` pair included)
stringifies to `"[object Object]"`. -/
def jsString : Value → String
  | Value.vStr s => s
  | Value.vBool b => if b then "true" else "false"
  | Value.vNull => "null"
  | Value.vFV _ _ => "[object Object]"

/-- JS `String(x ?? '')`: `undefined` (`none`) and `null` coalesce to the
empty string before coercion. -/
def coalesceString : Option Value → String
  | none => ""
  | some Value.vNull => ""
  | some v => jsString v

/-- From `src/utils/fieldValue.ts` `getDisplayValue`: the empty string for
`null`/`undefined`, the `display_value` member of a pair object, and JS
string coercion otherwise. -/
def getDisplayValue : Option Value → String
  | none => ""
  | some Value.vNull => ""
  | some (Value.vFV _ d) => d
  | some v => jsString v

/-- From `src/utils/fieldValue.ts` `getValue`: the empty string for
`null`/`undefined`, the `value` member of a pair object, and JS string
coercion otherwise. -/
def getValue : Option Value → String
  | none => ""
  | some Value.vNull => ""
  | some (Value.vFV v _) => v
  | some v => jsString v

/-- `listHasStart pat s` : `pat` is an initial run of `s` (character lists). -/
def listHasStart : List Char → List Char → Bool
  | [], _ => true
  | _ :: _, [] => false
  | a :: as, b :: bs => a == b && listHasStart as bs

/-- `listHasSub pat s` : `pat` occurs contiguously somewhere in `s`. -/
def listHasSub (pat : List Char) : List Char → Bool
  | [] => listHasStart pat []
  | c :: rest => listHasStart pat (c :: rest) || listHasSub pat rest

/-- JS `s.includes(pat)`. -/
def strContains (s pat : String) : Bool :=
  listHasSub pat.toList s.toList

/-- JS `s.startsWith(pat)`. -/
def strStarts (s pat : String) : Bool :=
  listHasStart pat.toList s.toList

/-- JS `s.endsWith(pat)`. -/
def strEnds (s pat : String) : Bool :=
  listHasStart pat.toList.reverse s.toList.reverse

/-- JS `s.toLowerCase()`, modelled on ASCII (every character of the claims'
inputs): map `Char.toLower` over the character list.  Written directly on the
underlying list so that the kernel can evaluate it. -/
def strToLower (s : String) : String :=
  String.mk (s.data.map Char.toLower)

/-- Strict lexicographic order on character lists (JS `<` on strings,
compared code unit by code unit). -/
def charListLt : List Char → List Char → Bool
  | [], [] => false
  | [], _ :: _ => true
  | _ :: _, [] => false
  | a :: as, b :: bs =>
      if a < b then true else if b < a then false else charListLt as bs

/-- JS `a < b` on strings. -/
def strLt (a b : String) : Bool :=
  charListLt a.toList b.toList

/-- Model of JS `a.localeCompare(b)` under the default `en` locale: equal
strings compare as 0; the primary comparison is case-insensitive
lexicographic; a case-only tie is broken with lowercase ordered first
(in JS `en`, `"a" < "A" < "b"`). -/
def localeCompare (a b : String) : Int :=
  if a = b then 0
  else if strLt (strToLower a) (strToLower b) then -1
  else if strLt (strToLower b) (strToLower a) then 1
  else if strLt a b then 1 else -1

/-- The AND/OR combinator of a filter condition. -/
inductive Conjunction where
  | and
  | or
deriving DecidableEq, Repr

/-- The seven filter operators of `FilterCondition` in `src/types`. -/
inductive FilterOp where
  | is
  | isNot
  | contains
  | startsWith
  | endsWith
  | greaterThan
  | lessThan
deriving DecidableEq, Repr

/-- A filter condition (`src/types` `FilterCondition`): field, operator,
comparison value, and an optional conjunction. -/
structure FilterCondition where
  field : String
  operator : FilterOp
  value : String
  conjunction : Option Conjunction
deriving DecidableEq, Repr

/-- The operator switch of `matchesFilters`, on the already lower-cased
record value and filter value. -/
def evalOp (op : FilterOp) (recordValue filterValue : String) : Bool :=
  match op with
  | FilterOp.is => recordValue == filterValue
  | FilterOp.isNot => recordValue != filterValue
  | FilterOp.contains => strContains recordValue filterValue
  | FilterOp.startsWith => strStarts recordValue filterValue
  | FilterOp.endsWith => strEnds recordValue filterValue
  | FilterOp.greaterThan => strLt filterValue recordValue
  | FilterOp.lessThan => strLt recordValue filterValue

/-- Per-condition match of `matchesFilters`: the record value is
`String(record[filter.field] ?? '')`, both sides lower-cased. -/
def condMatches (record : SNRecord) (f : FilterCondition) : Bool :=
  evalOp f.operator (strToLower (coalesceString (getField record f.field))) (strToLower f.value)

/-- Combine an accumulated result with a condition match under a
conjunction (the `if (currentConjunction === 'AND')` branch). -/
def applyConj (c : Conjunction) (result m : Bool) : Bool :=
  match c with
  | Conjunction.and => result && m
  | Conjunction.or => result || m

/-- The conjunction a condition carries for the NEXT iteration
(`filter.conjunction ?? 'AND'`). -/
def conjOf (f : FilterCondition) : Conjunction :=
  f.conjunction.getD Conjunction.and

/-- The loop body of `matchesFilters`: threads the accumulated `result` and
the pending `currentConjunction` through the condition list. -/
def matchesFiltersLoop (record : SNRecord) :
    List FilterCondition → Bool → Conjunction → Bool
  | [], result, _ => result
  | f :: rest, result, currentConjunction =>
      matchesFiltersLoop record rest
        (applyConj currentConjunction result (condMatches record f)) (conjOf f)

/-- From `src/api/mockApi.ts` `matchesFilters`: an empty chain accepts every
record; otherwise the fold starts from `result = true` with pending
conjunction AND. -/
def matchesFilters (record : SNRecord) (filters : List FilterCondition) : Bool :=
  if filters.isEmpty then true
  else matchesFiltersLoop record filters true Conjunction.and

/-- Stated from the spec's words, for comparison with `matchesFilters`: pair
each condition with the conjunction of the PREVIOUS condition (a vacuous AND
for the first), then fold left from `true`. -/
def specShiftedFold (record : SNRecord) (filters : List FilterCondition) : Bool :=
  (filters.zip (Conjunction.and :: filters.map conjOf)).foldl
    (fun result fc => applyConj fc.2 result (condMatches record fc.1)) true

/-- The closed field-type enumeration of `src/types` `FieldType`. -/
inductive FieldType where
  | string
  | text
  | richtext
  | integer
  | boolean
  | choice
  | reference
  | datetime
  | date
  | email
  | url
  | phone
  | currency
deriving DecidableEq, Repr

/-- `f.type === 'string' || f.type === 'text'` from the search step. -/
def isStringOrText : FieldType → Bool
  | FieldType.string => true
  | FieldType.text => true
  | _ => false

/-- The slice of `src/types` `FieldDefinition` the data layer reads. -/
structure FieldDefinition where
  name : String
  type : FieldType
deriving DecidableEq, Repr

/-- The slice of `src/types` `ListConfig` the claims need: the table's
configured default page size. -/
structure ListConfig where
  pageSize : Option Nat
deriving DecidableEq, Repr

/-- The slice of `src/types` `TableDefinition` the data layer reads: name,
field schema, list view config, and seed records. -/
structure TableDefinition where
  name : String
  fields : List FieldDefinition
  list : ListConfig
  data : List SNRecord
deriving DecidableEq, Repr

/-- Sort direction of `src/types` `QueryParams.sortDirection`. -/
inductive SortDir where
  | asc
  | desc
deriving DecidableEq, Repr

/-- `src/types` `QueryParams`; absent members are `none`. Pages and sizes
are modelled as naturals (queries use nonnegative integer pages; the JS
behaviour at negative pages is outside the model). -/
structure QueryParams where
  page : Option Nat := none
  pageSize : Option Nat := none
  sortField : Option String := none
  sortDirection : Option SortDir := none
  filters : Option (List FilterCondition) := none
  search : Option String := none
deriving DecidableEq, Repr

/-- `src/types` `ListResponse`. -/
structure ListResponse where
  data : List SNRecord
  total : Nat
  page : Nat
  pageSize : Nat
deriving DecidableEq, Repr

/-- The module state of `mockApi.ts`: the `tables` map and the `data` map,
both keyed by table name. -/
structure ApiState where
  tables : List (String × TableDefinition)
  data : List (String × List SNRecord)
deriving DecidableEq, Repr

/-- From `mockApi.ts` `initializeApi`: register every definition and seed its
record list (`Map.set` in a loop). -/
def initializeApi (tableDefs : List TableDefinition) : ApiState :=
  tableDefs.foldl
    (fun st table =>
      { tables := setAssoc st.tables table.name table,
        data := setAssoc st.data table.name table.data })
    { tables := [], data := [] }

/-- The search step's `stringFields`: names of the registered table's fields
of type string or text (`?? []` when the table definition is absent). -/
def stringFieldNames (st : ApiState) (tableName : String) : List String :=
  match lookupAssoc st.tables tableName with
  | none => []
  | some tableDef =>
      (tableDef.fields.filter (fun f => isStringOrText f.type)).map (fun f => f.name)

/-- One record's search test: some string/text field whose stored value is a
plain string (`typeof value === 'string'`) containing the lower-cased term. -/
def recordMatchesSearch (record : SNRecord) (stringFields : List String)
    (searchLower : String) : Bool :=
  stringFields.any (fun fname =>
    match getField record fname with
    | some (Value.vStr s) => strContains (strToLower s) searchLower
    | _ => false)

/-- Steps 1-2 of `getRecords`: table lookup (`none` when unregistered), then
the search filter (skipped for an absent or empty — JS-falsy — term), then
the condition filter (skipped for an absent or empty list). -/
def searchFiltered (st : ApiState) (tableName : String) (q : QueryParams) :
    Option (List SNRecord) :=
  match lookupAssoc st.data tableName with
  | none => none
  | some tableData =>
      let afterSearch :=
        match q.search with
        | none => tableData
        | some s =>
            if s = "" then tableData
            else tableData.filter
              (fun r => recordMatchesSearch r (stringFieldNames st tableName) (strToLower s))
      let afterFilters :=
        match q.filters with
        | none => afterSearch
        | some fs =>
            if fs.isEmpty then afterSearch
            else afterSearch.filter (fun r => matchesFilters r fs)
      some afterFilters

/-- The sort comparator of `getRecords`:
`String(a[sortField] ?? '').localeCompare(String(b[sortField] ?? '')) * direction`. -/
def sortCmp (sortField : String) (direction : Int) (a b : SNRecord) : Int :=
  localeCompare (coalesceString (getField a sortField))
    (coalesceString (getField b sortField)) * direction

/-- Insert `x` after every already-placed element `y` with `le y x`:
the insertion step of a stable sort. -/
def insertAfterLe {α : Type} (le : α → α → Bool) (x : α) : List α → List α
  | [] => [x]
  | y :: ys => if le y x then y :: insertAfterLe le x ys else x :: y :: ys

/-- Stable insertion sort; models JS `Array.prototype.sort`, which is
specified to be stable, for a consistent comparator. -/
def stableSortBy {α : Type} (le : α → α → Bool) (l : List α) : List α :=
  l.foldl (fun acc x => insertAfterLe le x acc) []

/-- Step 3 of `getRecords`: when `sortField` is set, stable-sort by the
comparator with `direction = -1` exactly when `sortDirection === 'desc'`. -/
def applySort (q : QueryParams) (records : List SNRecord) : List SNRecord :=
  match q.sortField with
  | none => records
  | some f =>
      let direction : Int := if q.sortDirection = some SortDir.desc then -1 else 1
      stableSortBy (fun a b => decide (sortCmp f direction a b ≤ 0)) records

/-- From `mockApi.ts` `getRecords`: search, filter, sort, then paginate with
`page ?? 1`, `pageSize ?? 20` and the slice `[start, start + pageSize)`. -/
def getRecords (st : ApiState) (tableName : String) (q : QueryParams) :
    Except String ListResponse :=
  match searchFiltered st tableName q with
  | none => Except.error ("Table \"" ++ tableName ++ "\" not found")
  | some filtered =>
      let sorted := applySort q filtered
      let page := q.page.getD 1
      let pageSize := q.pageSize.getD 20
      let start := (page - 1) * pageSize
      Except.ok
        { data := (sorted.drop start).take pageSize,
          total := sorted.length,
          page := page,
          pageSize := pageSize }

/-- From `mockApi.ts` `createRecord`: append
`\x7b...recordData, sys_id, sys_created_on, sys_updated_on\x7d` to the table;
the generated `sys_id` and the timestamp are explicit parameters. -/
def createRecord (st : ApiState) (tableName : String) (recordData : SNRecord)
    (newSysId now : String) : Except String (ApiState × SNRecord) :=
  match lookupAssoc st.data tableName with
  | none => Except.error ("Table \"" ++ tableName ++ "\" not found")
  | some tableData =>
      let newRecord :=
        setField (setField (setField recordData "sys_id" (Value.vStr newSysId))
          "sys_created_on" (Value.vStr now)) "sys_updated_on" (Value.vStr now)
      Except.ok
        ({ st with data := setAssoc st.data tableName (tableData ++ [newRecord]) },
          newRecord)

/-- `r.sys_id === sysId`: the strict comparison used by `findIndex`. -/
def hasSysId (sysId : String) (r : SNRecord) : Bool :=
  getField r "sys_id" == some (Value.vStr sysId)

/-- From `mockApi.ts` `updateRecord`: find the record by `sys_id`, build
`\x7b...old, ...updates, sys_id: sysId, sys_updated_on: now\x7d`, and write it
back at the same index.  `findIdx?` only returns in-range indices, so the
inner `none` branch is unreachable. -/
def updateRecord (st : ApiState) (tableName sysId : String) (updates : SNRecord)
    (now : String) : Except String (ApiState × SNRecord) :=
  match lookupAssoc st.data tableName with
  | none => Except.error ("Table \"" ++ tableName ++ "\" not found")
  | some tableData =>
      match tableData.findIdx? (hasSysId sysId) with
      | none =>
          Except.error
            ("Record \"" ++ sysId ++ "\" not found in table \"" ++ tableName ++ "\"")
      | some index =>
          match tableData.get? index with
          | none =>
              Except.error
                ("Record \"" ++ sysId ++ "\" not found in table \"" ++ tableName ++ "\"")
          | some current =>
              let updatedRecord :=
                setField (setField (mergeRecords current updates)
                  "sys_id" (Value.vStr sysId)) "sys_updated_on" (Value.vStr now)
              Except.ok
                ({ st with
                    data := setAssoc st.data tableName (tableData.set index updatedRecord) },
                  updatedRecord)

/-- From `mockApi.ts` `getRelatedRecords`: an unregistered table yields the
fixed empty response (pageSize 20); otherwise keep records with
`record[parentField] === parentSysId` (strict equality against a string) and
return them unpaginated with `pageSize = records.length`. -/
def getRelatedRecords (st : ApiState) (tableName parentField parentSysId : String) :
    ListResponse :=
  match lookupAssoc st.data tableName with
  | none => { data := [], total := 0, page := 1, pageSize := 20 }
  | some tableData =>
      let records :=
        tableData.filter (fun r => getField r parentField == some (Value.vStr parentSysId))
      { data := records, total := records.length, page := 1, pageSize := records.length }

/-- A JS runtime value as seen by the codec's `unknown` input.  Objects and
arrays carry the list of keys the `in` operator finds on them (for an array,
the numeric index keys are irrelevant to the codec and omitted). -/
inductive JSValue where
  | jNull
  | jUndefined
  | jBool (b : Bool)
  | jNum (n : Int)
  | jStr (s : String)
  | jObj (keys : List String)
  | jArr (keys : List String)
deriving DecidableEq, Repr

/-- JS `typeof x === 'object'`: true for plain objects, arrays — and `null`. -/
def typeofObject : JSValue → Bool
  | JSValue.jNull => true
  | JSValue.jObj _ => true
  | JSValue.jArr _ => true
  | _ => false

/-- JS `k in x` (property presence; only objects and arrays have keys). -/
def hasKey : JSValue → String → Bool
  | JSValue.jObj ks, k => ks.contains k
  | JSValue.jArr ks, k => ks.contains k
  | _, _ => false

/-- From `src/utils/fieldValue.ts` `isFieldValue`:
`typeof field === 'object' && field !== null && 'value' in field &&
'display_value' in field`. -/
def isFieldValue (x : JSValue) : Bool :=
  typeofObject x && !(x == JSValue.jNull) && hasKey x "value" && hasKey x "display_value"

/-- Writing a key and reading it back yields the written value. -/
theorem lookupAssoc_setAssoc_self {α : Type} (m : List (String × α)) (k : String) (v : α) :
    lookupAssoc (setAssoc m k v) k = some v := by
  induction m with
  | nil => simp [setAssoc, lookupAssoc]
  | cons kv rest ih =>
    obtain ⟨k1, v1⟩ := kv
    by_cases h : k1 = k
    · simp [setAssoc, lookupAssoc, h]
    · simp [setAssoc, lookupAssoc, h, ih]

/-- Writing a key leaves every other key's lookup unchanged. -/
theorem lookupAssoc_setAssoc_ne {α : Type} (m : List (String × α)) (k k' : String) (v : α)
    (h : k' ≠ k) : lookupAssoc (setAssoc m k v) k' = lookupAssoc m k' := by
  induction m with
  | nil => simp [setAssoc, lookupAssoc, Ne.symm h]
  | cons kv rest ih =>
    obtain ⟨k1, v1⟩ := kv
    by_cases hk : k1 = k
    · subst hk
      simp [setAssoc, lookupAssoc, Ne.symm h]
    · by_cases hk' : k1 = k'
      · simp [setAssoc, lookupAssoc, hk, hk', h]
      · simp [setAssoc, lookupAssoc, hk, hk', ih]

/-- Stable insertion grows the list by one element. -/
theorem insertAfterLe_length {α : Type} (le : α → α → Bool) (x : α) (l : List α) :
    (insertAfterLe le x l).length = l.length + 1 := by
  induction l with
  | nil => rfl
  | cons y ys ih =>
    by_cases h : le y x
    · simp [insertAfterLe, h, ih]
    · simp [insertAfterLe, h]

/-- Stable insertion sort permutes, so it preserves length. -/
theorem stableSortBy_length {α : Type} (le : α → α → Bool) (l : List α) :
    (stableSortBy le l).length = l.length := by
  suffices h : ∀ acc : List α,
      (l.foldl (fun acc x => insertAfterLe le x acc) acc).length = acc.length + l.length by
    simpa [stableSortBy] using h []
  induction l with
  | nil => intro acc; simp
  | cons y ys ih =>
    intro acc
    simp only [List.foldl_cons, List.length_cons]
    rw [ih, insertAfterLe_length]
    omega

/-- The sort step preserves length. -/
theorem applySort_length (q : QueryParams) (records : List SNRecord) :
    (applySort q records).length = records.length := by
  unfold applySort
  cases q.sortField with
  | none => rfl
  | some f => simp [stableSortBy_length]

/-- The threaded loop of `matchesFilters` is the fold over conditions paired
with their predecessor's conjunction. -/
theorem matchesFiltersLoop_eq_fold (record : SNRecord) (fs : List FilterCondition) :
    ∀ (result : Bool) (c : Conjunction),
      matchesFiltersLoop record fs result c =
        (fs.zip (c :: fs.map conjOf)).foldl
          (fun result fc => applyConj fc.2 result (condMatches record fc.1)) result := by
  induction fs with
  | nil => intro result c; rfl
  | cons f rest ih =>
    intro result c
    simp only [matchesFiltersLoop, List.map_cons, List.zip_cons_cons, List.foldl_cons]
    exact ih _ _

/-- C1: filter-chain evaluation is the shift-by-one left fold: starting from
result = true and pending conjunction AND, each condition's own conjunction
governs how the NEXT condition combines with the accumulated result (the
first condition's conjunction is ignored).  In particular, for three records
with name Alice/Bob/Charlie and filters
[(name is Alice, conjunction OR), (name is Bob)], exactly the records named
Alice and Bob are retained. -/
theorem filter_chain_shift_by_one_fold :
    (∀ (record : SNRecord) (filters : List FilterCondition),
        matchesFilters record filters = specShiftedFold record filters) ∧
    ([[("sys_id", Value.vStr "r1"), ("name", Value.vStr "Alice")],
      [("sys_id", Value.vStr "r2"), ("name", Value.vStr "Bob")],
      [("sys_id", Value.vStr "r3"), ("name", Value.vStr "Charlie")]].filter
        (fun r => matchesFilters r
          [{ field := "name", operator := FilterOp.is, value := "Alice",
             conjunction := some Conjunction.or },
           { field := "name", operator := FilterOp.is, value := "Bob",
             conjunction := none }]) =
      [[("sys_id", Value.vStr "r1"), ("name", Value.vStr "Alice")],
       [("sys_id", Value.vStr "r2"), ("name", Value.vStr "Bob")]]) := by
  constructor
  · intro record filters
    cases filters with
    | nil => rfl
    | cons f rest =>
      show matchesFiltersLoop record (f :: rest) true Conjunction.and = _
      exact matchesFiltersLoop_eq_fold record (f :: rest) true Conjunction.and
  · decide

/-- Stated from the spec's words, for comparison with `isFieldValue`: a
non-null value of JS object type (which includes arrays) that carries both
the raw-value key and the display-value key. -/
def specNonNullObjectWithKeys (x : JSValue) : Prop :=
  ∃ ks, (x = JSValue.jObj ks ∨ x = JSValue.jArr ks) ∧ "value" ∈ ks ∧ "display_value" ∈ ks

/-- C9 (counterexample): the claim says `is_field_value` is false on every
array, even one carrying both keys; but the code never tests `Array.isArray`,
so an array onto which both keys have been attached satisfies it. -/
theorem isFieldValue_true_on_array_with_keys :
    isFieldValue (JSValue.jArr ["value", "display_value"]) = true := by
  decide

/-- C9 (amended): `is_field_value(x)` is true iff `x` is a non-null value of
JS object type carrying both the raw-value key and the display-value key —
with arrays NOT excluded: an array carrying both keys satisfies it (an
ordinary array, lacking the keys, does not). -/
theorem isFieldValue_characterization (x : JSValue) :
    isFieldValue x = true ↔ specNonNullObjectWithKeys x := by
  cases x <;>
    simp [isFieldValue, typeofObject, hasKey, specNonNullObjectWithKeys, List.contains, List.elem_iff]

/-- C2: evaluation at the failing input.  For the record whose `name` field
is the pair `\x7bvalue: 'Alice', display_value: 'Alice'\x7d` and the single
condition `(name, 'is', 'alice')`, the lower-cased display value equals the
lower-cased condition value, yet `matchesFilters` rejects the record: the
code compares `String(record[field] ?? '')`, which coerces the pair to
`"[object Object]"`, never its `display_value`.  (The repository's own test
suite expects such a record to be retained.)  The first conjunct states what
the code actually compares for a single `is` condition. -/
theorem filter_is_compares_string_coercion_not_display :
    (∀ (record : SNRecord) (f v : String),
        matchesFilters record
            [{ field := f, operator := FilterOp.is, value := v, conjunction := none }] =
          (strToLower (coalesceString (getField record f)) == strToLower v)) ∧
    matchesFilters [("name", Value.vFV "Alice" "Alice")]
        [{ field := "name", operator := FilterOp.is, value := "alice", conjunction := none }] =
      false ∧
    strToLower (getDisplayValue (getField [("name", Value.vFV "Alice" "Alice")] "name")) =
      "alice" := by
  refine ⟨?_, by decide, by decide⟩
  intro record f v
  simp [matchesFilters, matchesFiltersLoop, applyConj, condMatches, evalOp]

/-- Record with reference display value Charlie and raw value user_3. -/
def c3RecordCharlie : SNRecord :=
  [("sys_id", Value.vStr "id_0"), ("assigned_to", Value.vFV "user_3" "Charlie")]

/-- Record with reference display value Alice and raw value user_1. -/
def c3RecordAlice : SNRecord :=
  [("sys_id", Value.vStr "id_1"), ("assigned_to", Value.vFV "user_1" "Alice")]

/-- Record with reference display value Bob and raw value user_2. -/
def c3RecordBob : SNRecord :=
  [("sys_id", Value.vStr "id_2"), ("assigned_to", Value.vFV "user_2" "Bob")]

/-- Table for the sort scenario: a reference field `assigned_to`, records in
order Charlie, Alice, Bob. -/
def c3Table : TableDefinition :=
  { name := "test_table",
    fields := [{ name := "name", type := FieldType.string },
               { name := "assigned_to", type := FieldType.reference }],
    list := { pageSize := some 20 },
    data := [c3RecordCharlie, c3RecordAlice, c3RecordBob] }

/-- C3: evaluation at the failing input.  Ascending sort on `assigned_to`
returns the records in their original order Charlie, Alice, Bob — not Alice
first as the claim (and the repository's own test) require: the code's sort
key is `String(a[sortField] ?? '')`, which coerces every
`\x7bvalue, display_value\x7d` pair to the same string `"[object Object]"`,
so the stable sort changes nothing. -/
theorem sort_key_is_string_coercion_not_display :
    getRecords (initializeApi [c3Table]) "test_table" { sortField := some "assigned_to" } =
      Except.ok { data := [c3RecordCharlie, c3RecordAlice, c3RecordBob],
                  total := 3, page := 1, pageSize := 20 } ∧
    getDisplayValue (getField c3RecordAlice "assigned_to") = "Alice" ∧
    getDisplayValue (getField c3RecordCharlie "assigned_to") = "Charlie" := by
  refine ⟨by rfl, by decide, by decide⟩

/-- Record whose string-typed `name` field stores a
`\x7bvalue, display_value\x7d` pair containing "Server". -/
def c6Record : SNRecord :=
  [("sys_id", Value.vStr "id_0"),
   ("name", Value.vFV "Server Issue" "Server Issue"),
   ("description", Value.vFV "Production down" "Production down")]

/-- Table for the search scenario: string, text and boolean fields. -/
def c6Table : TableDefinition :=
  { name := "test_table",
    fields := [{ name := "name", type := FieldType.string },
               { name := "description", type := FieldType.text },
               { name := "active", type := FieldType.boolean }],
    list := { pageSize := some 20 },
    data := [c6Record] }

/-- C6: evaluation at the failing input.  Searching for "server" returns no
records although the display value of the string-typed `name` field contains
it: the search step requires the STORED value to be a plain JS string
(`typeof value === 'string'`), so pair-valued string/text fields never
participate.  (The repository's own search tests store pairs and expect
matches.) -/
theorem search_requires_plain_string_value :
    getRecords (initializeApi [c6Table]) "test_table" { search := some "server" } =
      Except.ok { data := [], total := 0, page := 1, pageSize := 20 } ∧
    strContains (strToLower (getDisplayValue (getField c6Record "name"))) "server" = true := by
  refine ⟨by rfl, by decide⟩

/-- First record whose `assigned_to` raw value is user_1. -/
def c8RecordA : SNRecord :=
  [("sys_id", Value.vStr "id_0"), ("assigned_to", Value.vFV "user_1" "Alice")]

/-- Second record whose `assigned_to` raw value is user_1. -/
def c8RecordB : SNRecord :=
  [("sys_id", Value.vStr "id_1"), ("assigned_to", Value.vFV "user_1" "Alice")]

/-- Record whose `assigned_to` raw value is user_2. -/
def c8RecordC : SNRecord :=
  [("sys_id", Value.vStr "id_2"), ("assigned_to", Value.vFV "user_2" "Bob")]

/-- Table for the related-records scenario. -/
def c8Table : TableDefinition :=
  { name := "test_table",
    fields := [{ name := "assigned_to", type := FieldType.reference }],
    list := { pageSize := some 20 },
    data := [c8RecordA, c8RecordB, c8RecordC] }

/-- C8: evaluation at the failing inputs.  Two records carry the raw value
user_1 in `assigned_to` (second conjunct, via the codec), yet
`getRelatedRecords` returns none of them: it compares
`record[parentField] === parentSysId`, a strict equality that is always
false between a pair object and a string.  (The repository's own test
expects 2 matches.)  Third conjunct: on an unregistered table the code
returns `pageSize = 20`, not `page_size = total = 0` as claimed. -/
theorem related_records_strict_equality :
    getRelatedRecords (initializeApi [c8Table]) "test_table" "assigned_to" "user_1" =
      { data := [], total := 0, page := 1, pageSize := 0 } ∧
    getValue (getField c8RecordA "assigned_to") = "user_1" ∧
    getRelatedRecords (initializeApi []) "fake_table" "field" "value" =
      { data := [], total := 0, page := 1, pageSize := 20 } := by
  refine ⟨by decide, by decide, by decide⟩

/-- C4: for every registered table and query (with a positive requested
page, the domain on which the JS slice arithmetic is modelled), the response
total is the post-search-and-filter count — for every page and page size —
and the data is the slice `[(page-1)*pageSize, page*pageSize)` of the sorted
records; a page beyond the data yields an empty slice. -/
theorem pagination_total_and_slice (st : ApiState) (tn : String) (q : QueryParams)
    (fl : List SNRecord) (hreg : searchFiltered st tn q = some fl)
    (hpage : 1 ≤ q.page.getD 1) :
    getRecords st tn q =
      Except.ok
        { data := ((applySort q fl).drop ((q.page.getD 1 - 1) * q.pageSize.getD 20)).take
            (q.pageSize.getD 20),
          total := fl.length,
          page := q.page.getD 1,
          pageSize := q.pageSize.getD 20 } ∧
    (∀ p ps : Option Nat,
        (getRecords st tn { q with page := p, pageSize := ps }).map ListResponse.total =
          Except.ok fl.length) ∧
    (fl.length ≤ (q.page.getD 1 - 1) * q.pageSize.getD 20 →
      ((applySort q fl).drop ((q.page.getD 1 - 1) * q.pageSize.getD 20)).take
          (q.pageSize.getD 20) = []) := by
  refine ⟨?_, ?_, ?_⟩
  · simp [getRecords, hreg, applySort_length]
  · intro p ps
    have hreg2 : searchFiltered st tn { q with page := p, pageSize := ps } = some fl := hreg
    simp [getRecords, hreg2, Except.map, applySort_length]
  · intro hle
    have hdrop : (applySort q fl).drop ((q.page.getD 1 - 1) * q.pageSize.getD 20) = [] :=
      List.drop_eq_nil_of_le (by rw [applySort_length]; exact hle)
    rw [hdrop, List.take_nil]

/-- Records for the pagination scenario. -/
def c4Records : List SNRecord :=
  [[("sys_id", Value.vStr "a"), ("name", Value.vStr "Apple")],
   [("sys_id", Value.vStr "b"), ("name", Value.vStr "Banana")],
   [("sys_id", Value.vStr "c"), ("name", Value.vStr "Cherry")]]

/-- Table for the pagination scenario. -/
def c4Table : TableDefinition :=
  { name := "test_table",
    fields := [{ name := "name", type := FieldType.string }],
    list := { pageSize := some 20 },
    data := c4Records }

/-- Query asking for a page beyond the three available records. -/
def c4Query : QueryParams := { page := some 5, pageSize := some 2 }

/-- Witness for `pagination_total_and_slice` at a concrete out-of-range page. -/
theorem pagination_total_and_slice_witness :
    (searchFiltered (initializeApi [c4Table]) "test_table" c4Query = some c4Records ∧
      1 ≤ c4Query.page.getD 1) ∧
    (getRecords (initializeApi [c4Table]) "test_table" c4Query =
      Except.ok
        { data := ((applySort c4Query c4Records).drop
              ((c4Query.page.getD 1 - 1) * c4Query.pageSize.getD 20)).take
            (c4Query.pageSize.getD 20),
          total := c4Records.length,
          page := c4Query.page.getD 1,
          pageSize := c4Query.pageSize.getD 20 } ∧
      (∀ p ps : Option Nat,
          (getRecords (initializeApi [c4Table]) "test_table"
              { c4Query with page := p, pageSize := ps }).map ListResponse.total =
            Except.ok c4Records.length) ∧
      (c4Records.length ≤ (c4Query.page.getD 1 - 1) * c4Query.pageSize.getD 20 →
        ((applySort c4Query c4Records).drop
            ((c4Query.page.getD 1 - 1) * c4Query.pageSize.getD 20)).take
          (c4Query.pageSize.getD 20) = [])) :=
  ⟨⟨by decide, by decide⟩,
    pagination_total_and_slice (initializeApi [c4Table]) "test_table" c4Query c4Records
      (by decide) (by decide)⟩

/-- A record for the default-page-size scenario. -/
def c5Record1 : SNRecord := [("sys_id", Value.vStr "a"), ("name", Value.vStr "Apple")]

/-- A second record for the default-page-size scenario. -/
def c5Record2 : SNRecord := [("sys_id", Value.vStr "b"), ("name", Value.vStr "Banana")]

/-- Table configuring a default page size of 50. -/
def c5Table : TableDefinition :=
  { name := "t",
    fields := [{ name := "name", type := FieldType.string }],
    list := { pageSize := some 50 },
    data := [c5Record1, c5Record2] }

/-- C5 (counterexample): the queried table configures a default page size of
50, yet a query omitting `page_size` is answered with `pageSize = 20`: the
engine's `query.pageSize ?? 20` never consults the table definition. -/
theorem default_page_size_ignores_table_config :
    (lookupAssoc (initializeApi [c5Table]).tables "t").map (fun td => td.list.pageSize) =
      some (some 50) ∧
    getRecords (initializeApi [c5Table]) "t" {} =
      Except.ok { data := [c5Record1, c5Record2], total := 2, page := 1, pageSize := 20 } := by
  refine ⟨by decide, by rfl⟩

/-- C5 (amended): when a query omits `page_size`, the engine uses the
constant 20 — regardless of the queried table's configured default page
size — and when it omits `page`, the page defaults to 1. -/
theorem query_defaults_page_one_size_twenty (st : ApiState) (tn : String)
    (q : QueryParams) (resp : ListResponse) (h : getRecords st tn q = Except.ok resp) :
    (q.page = none → resp.page = 1) ∧ (q.pageSize = none → resp.pageSize = 20) := by
  cases hsf : searchFiltered st tn q with
  | none => simp [getRecords, hsf] at h
  | some fl =>
    simp only [getRecords, hsf, Except.ok.injEq] at h
    subst h
    constructor
    · intro hp; simp [hp]
    · intro hps; simp [hps]

/-- Witness for `query_defaults_page_one_size_twenty` on the table whose
configured default page size is 50. -/
theorem query_defaults_page_one_size_twenty_witness :
    getRecords (initializeApi [c5Table]) "t" {} =
      Except.ok { data := [c5Record1, c5Record2], total := 2, page := 1, pageSize := 20 } ∧
    ((({} : QueryParams).page = none →
        ({ data := [c5Record1, c5Record2], total := 2, page := 1,
           pageSize := 20 } : ListResponse).page = 1) ∧
      (({} : QueryParams).pageSize = none →
        ({ data := [c5Record1, c5Record2], total := 2, page := 1,
           pageSize := 20 } : ListResponse).pageSize = 20)) :=
  ⟨by rfl,
    query_defaults_page_one_size_twenty (initializeApi [c5Table]) "t" {}
      { data := [c5Record1, c5Record2], total := 2, page := 1, pageSize := 20 } (by rfl)⟩

/-- Setting a record field and reading it back yields the written value. -/
theorem getField_setField_self (r : SNRecord) (k : String) (v : Value) :
    getField (setField r k v) k = some v :=
  lookupAssoc_setAssoc_self r k v

/-- Setting a record field leaves every other field unchanged. -/
theorem getField_setField_ne (r : SNRecord) (k k' : String) (v : Value) (h : k' ≠ k) :
    getField (setField r k v) k' = getField r k' :=
  lookupAssoc_setAssoc_ne r k k' v h

/-- C7: for every existing record, `updateRecord` returns a record whose
`sys_id` equals the looked-up id even when the patch carries a different
`sys_id`, stamps `sys_updated_on` with the (explicit) current time, and
writes the record back at its original index in the table's sequence. -/
theorem update_preserves_identity_and_position (st : ApiState) (tn id : String)
    (patch : SNRecord) (now : String) (td : List SNRecord) (idx : Nat)
    (st2 : ApiState) (rec : SNRecord)
    (h1 : lookupAssoc st.data tn = some td)
    (h2 : td.findIdx? (hasSysId id) = some idx)
    (hok : updateRecord st tn id patch now = Except.ok (st2, rec)) :
    getField rec "sys_id" = some (Value.vStr id) ∧
    getField rec "sys_updated_on" = some (Value.vStr now) ∧
    lookupAssoc st2.data tn = some (td.set idx rec) := by
  cases hget : td[idx]? with
  | none => simp [updateRecord, h1, h2, List.get?_eq_getElem?, hget] at hok
  | some current =>
    simp only [updateRecord, h1, h2, List.get?_eq_getElem?, hget, Except.ok.injEq,
      Prod.mk.injEq] at hok
    obtain ⟨hst, hrec⟩ := hok
    subst hst
    subst hrec
    refine ⟨?_, ?_, ?_⟩
    · rw [getField_setField_ne _ _ _ _ (by decide), getField_setField_self]
    · exact getField_setField_self _ _ _
    · exact lookupAssoc_setAssoc_self _ _ _

/-- Timestamp used in the update scenario. -/
def c7Now : String := "2026-01-01T00:00:00Z"

/-- The pre-existing record of the update scenario. -/
def c7Old : SNRecord := [("sys_id", Value.vStr "fixed_id"), ("name", Value.vStr "Old")]

/-- A patch that tries to overwrite `sys_id`. -/
def c7Patch : SNRecord :=
  [("sys_id", Value.vStr "attempted_override"), ("name", Value.vStr "New")]

/-- Table for the update scenario. -/
def c7Table : TableDefinition :=
  { name := "t",
    fields := [{ name := "name", type := FieldType.string }],
    list := { pageSize := some 20 },
    data := [c7Old] }

/-- The record `updateRecord` produces in the update scenario. -/
def c7New : SNRecord :=
  [("sys_id", Value.vStr "fixed_id"), ("name", Value.vStr "New"),
   ("sys_updated_on", Value.vStr c7Now)]

/-- The state `updateRecord` produces in the update scenario. -/
def c7St2 : ApiState :=
  { tables := (initializeApi [c7Table]).tables, data := [("t", [c7New])] }

/-- Witness for `update_preserves_identity_and_position` on a patch carrying
a different `sys_id`. -/
theorem update_preserves_identity_and_position_witness :
    (lookupAssoc (initializeApi [c7Table]).data "t" = some [c7Old] ∧
      [c7Old].findIdx? (hasSysId "fixed_id") = some 0 ∧
      updateRecord (initializeApi [c7Table]) "t" "fixed_id" c7Patch c7Now =
        Except.ok (c7St2, c7New)) ∧
    (getField c7New "sys_id" = some (Value.vStr "fixed_id") ∧
      getField c7New "sys_updated_on" = some (Value.vStr c7Now) ∧
      lookupAssoc c7St2.data "t" = some ([c7Old].set 0 c7New)) :=
  ⟨⟨by decide, by decide, by rfl⟩,
    update_preserves_identity_and_position (initializeApi [c7Table]) "t" "fixed_id"
      c7Patch c7Now [c7Old] 0 c7St2 c7New (by decide) (by decide) (by rfl)⟩

/-- C10: `createRecord` discards any caller-supplied `sys_id` and
timestamps: the returned record always carries the freshly generated
identifier and the facade's created/updated stamps, whatever the caller's
partial record contained. -/
theorem create_discards_caller_identity (st : ApiState) (tn : String)
    (recordData : SNRecord) (gen now : String) (st2 : ApiState) (rec : SNRecord)
    (hok : createRecord st tn recordData gen now = Except.ok (st2, rec)) :
    getField rec "sys_id" = some (Value.vStr gen) ∧
    getField rec "sys_created_on" = some (Value.vStr now) ∧
    getField rec "sys_updated_on" = some (Value.vStr now) := by
  cases hlk : lookupAssoc st.data tn with
  | none => simp [createRecord, hlk] at hok
  | some td =>
    simp only [createRecord, hlk, Except.ok.injEq, Prod.mk.injEq] at hok
    obtain ⟨-, hrec⟩ := hok
    subst hrec
    refine ⟨?_, ?_, ?_⟩
    · rw [getField_setField_ne _ _ _ _ (by decide),
        getField_setField_ne _ _ _ _ (by decide), getField_setField_self]
    · rw [getField_setField_ne _ _ _ _ (by decide), getField_setField_self]
    · exact getField_setField_self _ _ _

/-- Caller data that tries to supply its own identifier and timestamps. -/
def c10Data : SNRecord :=
  [("sys_id", Value.vStr "caller_id"), ("sys_created_on", Value.vStr "1999-01-01"),
   ("name", Value.vStr "X")]

/-- Table for the create scenario (initially empty). -/
def c10Table : TableDefinition :=
  { name := "t",
    fields := [{ name := "name", type := FieldType.string }],
    list := { pageSize := some 20 },
    data := [] }

/-- The record `createRecord` produces in the create scenario. -/
def c10New : SNRecord :=
  [("sys_id", Value.vStr "gen_id"), ("sys_created_on", Value.vStr "2026-01-01"),
   ("name", Value.vStr "X"), ("sys_updated_on", Value.vStr "2026-01-01")]

/-- The state `createRecord` produces in the create scenario. -/
def c10St2 : ApiState :=
  { tables := (initializeApi [c10Table]).tables, data := [("t", [c10New])] }

/-- Witness for `create_discards_caller_identity` on caller data carrying its
own `sys_id` and `sys_created_on`. -/
theorem create_discards_caller_identity_witness :
    createRecord (initializeApi [c10Table]) "t" c10Data "gen_id" "2026-01-01" =
      Except.ok (c10St2, c10New) ∧
    (getField c10New "sys_id" = some (Value.vStr "gen_id") ∧
      getField c10New "sys_created_on" = some (Value.vStr "2026-01-01") ∧
      getField c10New "sys_updated_on" = some (Value.vStr "2026-01-01")) :=
  ⟨by rfl,
    create_discards_caller_identity (initializeApi [c10Table]) "t" c10Data "gen_id"
      "2026-01-01" c10St2 c10New (by rfl)⟩
